import Mathlib

/-!
Shallow embedding of the PureAir live-AQI pipeline
(`src/unnamed/part_001`: aggregation, resilient caching, intelligence engine,
trend slope, ward interpolation; `src/unnamed/part_002`: forecast fallback).

Modelling conventions:
* JavaScript numbers in this pipeline are always integer AQI values or `NaN`
  (every value flows from `parseInt`, `Math.max` over `parseInt` results, or
  the integer constant 345), so they are embedded as `JsInt := nan | int ℤ`.
  All JS comparisons return `false` on `NaN`, which `JsInt` mirrors.
* `localStorage` is embedded as an explicit `Store` record threaded through the
  functions.  Stored strings are represented by what reading them yields:
  the durable slot by the `parseInt` outcome of the stored string
  (`DurSlot.stored p`, with `p = nan` for a non-numeric string; `absent` for a
  null or empty — falsy — string), the live slot by the `JSON.parse` outcome
  (`corrupt` when `JSON.parse` throws).  `getItem`/`setItem` themselves never
  throw in this model; the modelled hazards are the parse steps, which is
  where the source can actually throw.
* `fetch` results are environment inputs (`FetchResult`): either the promise
  rejects (`throws`) or a decoded JSON body is returned.  In the source the
  only `throw` points of the outer `try` are the two fetch/JSON steps, both of
  which occur before any store write, so the catch branch runs on the
  unmodified store.
* Real-number interpolation (`part_001:270-293`) is embedded over `ℚ`.
  `Math.sqrt` is eliminated: the loop uses the distance only squared
  (`Math.pow(d,2)` with `d = Math.sqrt(dsq)` gives back `dsq`) and in the
  strictly monotone comparison `d < minDist`, which coincides with comparing
  squared distances, so distances are carried squared.
* `Math.round x` is `⌊x + 1/2⌋` (JS rounds half-up, toward +∞).
-/

/-- `AQILevel` enum from `types` (memberships seen across the repository). -/
inductive AQILevel where
  | HAZARDOUS
  | SEVERE
  | POOR
  | MODERATE
  | GOOD
deriving DecidableEq

/-- A JavaScript number as it occurs in this pipeline: an integer or `NaN`. -/
inductive JsInt where
  | nan
  | int (n : ℤ)
deriving DecidableEq

namespace JsInt

/-- JS `x > m` (false on `NaN`). -/
def gt : JsInt → ℤ → Bool
  | nan, _ => false
  | int n, m => m < n

/-- JS `x >= m` (false on `NaN`). -/
def ge : JsInt → ℤ → Bool
  | nan, _ => false
  | int n, m => m ≤ n

/-- JS `x < m` (false on `NaN`). -/
def lt : JsInt → ℤ → Bool
  | nan, _ => false
  | int n, m => n < m

/-- JS `x <= m` (false on `NaN`). -/
def le : JsInt → ℤ → Bool
  | nan, _ => false
  | int n, m => n ≤ m

/-- JS subtraction (`NaN` propagates). -/
def sub : JsInt → JsInt → JsInt
  | int a, int b => int (a - b)
  | _, _ => nan

/-- JS `isNaN`. -/
def isNaN : JsInt → Bool
  | nan => true
  | _ => false

end JsInt

/-- `getStatusFromAQI` (`part_001:16-23`).  Both the `>300` and `>200`
branches return `AQILevel.POOR`, exactly as in the source. -/
def getStatusFromAQI (aqi : JsInt) : AQILevel :=
  if aqi.gt 450 then AQILevel.HAZARDOUS
  else if aqi.gt 400 then AQILevel.SEVERE
  else if aqi.gt 300 then AQILevel.POOR
  else if aqi.gt 200 then AQILevel.POOR
  else if aqi.gt 100 then AQILevel.MODERATE
  else AQILevel.GOOD

/-- Result record of `getGRAPStage`. -/
structure GRAPStage where
  stage : ℕ
  label : String
  description : String
deriving DecidableEq

/-- `getGRAPStage` (`part_001:26-32`). -/
def getGRAPStage (aqi : JsInt) : GRAPStage :=
  if aqi.ge 450 then ⟨4, "GRAP Stage IV", "Severe+: Truck Entry Ban, Odd-Even Scheme"⟩
  else if aqi.ge 401 then ⟨3, "GRAP Stage III", "Severe: Construction & Demolition Ban"⟩
  else if aqi.ge 301 then ⟨2, "GRAP Stage II", "Very Poor: Diesel Gen Set Ban, Parking Fee Hike"⟩
  else if aqi.ge 201 then ⟨1, "GRAP Stage I", "Poor: Dust Control, Mechanized Sweeping"⟩
  else ⟨0, "No GRAP Active", "Standard Pollution Control Measures"⟩

/-- The `trend` union type of `IntelligentAnalysis`. -/
inductive Trend where
  | improving
  | worsening
  | stable
deriving DecidableEq

/-- The `prediction` union type of `IntelligentAnalysis`. -/
inductive MicroPrediction where
  | increasing
  | stable
  | decreasing
deriving DecidableEq

/-- The `exposureMinutes` field, `number | string` in the source where the
string is always the literal `'Unlimited'`. -/
inductive ExposureLimit where
  | minutes (m : ℕ)
  | unlimited
deriving DecidableEq

/-- The `recommendation` record of `IntelligentAnalysis`. -/
structure Recommendation where
  mask : String
  activity : String
  school : String
deriving DecidableEq

/-- `IntelligentAnalysis` from `types`, as populated by `calculateIntelligence`. -/
structure IntelligentAnalysis where
  riskLevel : AQILevel
  trend : Trend
  exposureMinutes : ExposureLimit
  sensitiveGroupWarning : String
  recommendation : Recommendation
  prediction : MicroPrediction
  grap : GRAPStage
deriving DecidableEq

/-- Content of the durable `pureair_last_valid_aqi` slot, as seen by a reader:
`absent` for a null or empty (falsy) string, `stored p` for a non-empty string
whose `parseInt` result is `p` (`p = nan` when the string is non-numeric).
Writing `setItem(key, v.toString())` yields `stored v`: `parseInt` of an
integer's decimal string is that integer, and `parseInt("NaN")` is `NaN`. -/
inductive DurSlot where
  | absent
  | stored (p : JsInt)
deriving DecidableEq

/-- `calculateIntelligence` (`part_001:38-99`).  The source reads the durable
slot from `localStorage` inside a `try`; here the slot value is passed in.
A read that throws leaves `trend` at its initial `'stable'`, which coincides
with passing `absent`.  `hour` is the wall-clock hour read from `new Date()`. -/
def calculateIntelligence (aqi : JsInt) (lastSlot : DurSlot) (hour : ℕ) :
    IntelligentAnalysis :=
  -- 1. Trend detection
  let trend : Trend :=
    match lastSlot with
    | .absent => .stable
    | .stored prev =>
      let delta := aqi.sub prev
      if delta.gt 5 then .worsening
      else if delta.lt (-5) then .improving
      else .stable
  -- 2. Micro prediction (diurnal heuristic)
  let prediction : MicroPrediction :=
    if (22 ≤ hour ∨ hour ≤ 9) ∧ trend ≠ .improving then .increasing
    else if 12 ≤ hour ∧ hour ≤ 17 then .decreasing
    else .stable
  -- 3. Exposure intelligence (mutation chain in the source, first match wins)
  let exposure : ExposureLimit × String × String × String × String :=
    if aqi.gt 300 then
      (.minutes 0, "CRITICAL: Immediate Indoor Confinement", "N95/N99 Mandatory",
        "Avoid all outdoor exertion", "Remote Learning Recommended")
    else if aqi.gt 200 then
      (.minutes 15, "High Risk: Asthma/Elderly/Kids stay indoors", "N95 Recommended",
        "No outdoor exercise", "Suspend Outdoor Sports")
    else if aqi.gt 150 then
      (.minutes 30, "Moderate Risk for sensitive lungs",
        "Mask recommended for prolonged exposure", "Reduce intensity", "Limit Recess")
    else if aqi.gt 100 then
      (.minutes 60, "Sensitive groups reduce prolonged exertion",
        "Optional for sensitive groups", "Take breaks", "Open")
    else (.unlimited, "None", "None required", "Normal outdoor activity", "Open")
  { riskLevel := getStatusFromAQI aqi
    trend := trend
    exposureMinutes := exposure.1
    sensitiveGroupWarning := exposure.2.1
    recommendation :=
      { mask := exposure.2.2.1, activity := exposure.2.2.2.1, school := exposure.2.2.2.2 }
    prediction := prediction
    grap := getGRAPStage aqi }

/-- `LiveAqiData` from `types`, as populated by `fetchLiveCityAQI`. -/
structure LiveAqiData where
  aqi : JsInt
  status : AQILevel
  dominant : String
  city : String
  time : String
  intelligence : IntelligentAnalysis
deriving DecidableEq

/-- Content of the live `pureair_live_aqi` slot: `absent` when `getItem`
returns null, `corrupt` when the stored string makes `JSON.parse` throw,
`entry data timestamp` for a well-formed `{data, timestamp}` record. -/
inductive LiveSlot where
  | absent
  | corrupt
  | entry (data : LiveAqiData) (timestamp : ℤ)
deriving DecidableEq

/-- The two `localStorage` slots used by the pipeline. -/
structure Store where
  live : LiveSlot
  lastValid : DurSlot
deriving DecidableEq

/-- Outcome of an awaited `fetch` + JSON decode: the promise rejects, or a
decoded body is returned. -/
inductive FetchResult (α : Type) where
  | throws
  | returns (val : α)
deriving DecidableEq

/-- Decoded body of the `/feed/here/` fallback endpoint: `notOk` when
`status !== 'ok'`; otherwise the `parseInt` result of `data.aqi`, the
`dominentpol` string (`none` models a falsy — absent or empty — value, which
the source replaces with `'PM2.5'`), and `data.city.name`. -/
inductive FeedResp where
  | notOk
  | ok (aqi : JsInt) (dominant : Option String) (city : String)
deriving DecidableEq

/-- Upstream environment of one `fetchLiveCityAQI` call: the two network
responses, `Date.now()`, the wall-clock hour, and the formatted time string.
The bounds body is `none` when `status !== 'ok'` or `data` is not an array,
and `some l` with `l` the per-station `parseInt(s.aqi)` results otherwise. -/
structure Env where
  bounds : FetchResult (Option (List JsInt))
  feed : FetchResult FeedResp
  nowTime : ℤ
  hour : ℕ
  timeStr : String
deriving DecidableEq

/-- Station filter of the bounds aggregation (`part_001:130-132`):
`json.data.map(s => parseInt(s.aqi)).filter(val => !isNaN(val) && val > 0)`. -/
def validStations : List JsInt → List ℤ
  | [] => []
  | .nan :: t => validStations t
  | .int n :: t => if 0 < n then n :: validStations t else validStations t

/-- City AQI from the bounds response (`part_001:124-140`): 0 unless the
status is ok, the data array is non-empty, and at least one valid station
remains, in which case `Math.max` over the valid stations. -/
def boundsAqi : Option (List JsInt) → ℤ
  | none => 0
  | some l =>
    if l.isEmpty then 0
    else
      match validStations l with
      | [] => 0
      | h :: t => List.foldl max h t

/-- Steps 4-5 of `fetchLiveCityAQI` (`part_001:153-178`): failsafe on a
non-positive or `NaN` value, durable-slot write, intelligence derivation,
result construction and live-cache write.  `a` is `currentAqi` after the
aggregation and single-feed steps. -/
def finishPipeline (env : Env) (store : Store) (a : JsInt) (dom city : String) :
    Except Unit LiveAqiData × Store :=
  -- 4. Failsafe (`if (isNaN(currentAqi) || currentAqi <= 0)`); note that the
  -- durable slot's parseInt result is taken without any re-check.
  let a2 : JsInt :=
    if a.isNaN || a.le 0 then
      match store.lastValid with
      | .absent => .int 345
      | .stored p => p
    else a
  -- Update last valid, then derive intelligence reading that same slot.
  let st2 : Store := { store with lastValid := .stored a2 }
  let intelligence := calculateIntelligence a2 st2.lastValid env.hour
  let result : LiveAqiData :=
    { aqi := a2, status := getStatusFromAQI a2, dominant := dom, city := city,
      time := env.timeStr, intelligence := intelligence }
  (.ok result, { st2 with live := .entry result env.nowTime })

/-- The `catch` branch of `fetchLiveCityAQI` (`part_001:180-195`): return the
cached value if present — `JSON.parse(cached).data` throws to the caller on a
corrupt slot — else the hard-coded offline fallback.  All modelled throw
points precede any store write, so the branch sees the original store. -/
def catchPath (env : Env) (store : Store) : Except Unit LiveAqiData × Store :=
  match store.live with
  | .entry d _ => (.ok d, store)
  | .corrupt => (.error (), store)
  | .absent =>
    (.ok { aqi := .int 345, status := AQILevel.SEVERE, dominant := "PM2.5",
           city := "Delhi (Offline Mode)", time := env.timeStr,
           intelligence := calculateIntelligence (.int 345) store.lastValid env.hour },
     store)

/-- Body of the outer `try` of `fetchLiveCityAQI` after the cache check
(`part_001:119-195`): bounds aggregation, single-feed fallback when the
aggregate is 0, then `finishPipeline`; a rejecting fetch diverts to
`catchPath`. -/
def mainPipeline (env : Env) (store : Store) : Except Unit LiveAqiData × Store :=
  match env.bounds with
  | .throws => catchPath env store
  | .returns bdata =>
    let a1 : ℤ := boundsAqi bdata
    -- 3. Fallback to city feed if aggregation failed or returned 0
    if a1 = 0 then
      match env.feed with
      | .throws => catchPath env store
      | .returns .notOk => finishPipeline env store (.int 0) "PM2.5" "Delhi NCT"
      | .returns (.ok a d c) => finishPipeline env store a (d.getD "PM2.5") c
    else
      finishPipeline env store (.int a1) "PM2.5" "Delhi NCT"

/-- The fresh-cache-hit test of step 1 (`part_001:109-117`): a well-formed
entry younger than 10 minutes with a positive AQI.  A corrupt slot throws
inside the inner `try`/`catch` and so counts as a miss. -/
def freshCacheHit (env : Env) (store : Store) : Bool :=
  match store.live with
  | .entry d ts => decide (env.nowTime - ts < 10 * 60 * 1000) && d.aqi.gt 0
  | _ => false

/-- `fetchLiveCityAQI` (`part_001:105-196`), as a function of the upstream
environment and the storage state.  `Except.error` models the promise
rejecting (an exception reaching the caller). -/
def fetchLiveCityAQI (env : Env) (store : Store) :
    Except Unit LiveAqiData × Store :=
  match store.live with
  | .entry d ts =>
    if decide (env.nowTime - ts < 10 * 60 * 1000) && d.aqi.gt 0 then (.ok d, store)
    else mainPipeline env store
  | _ => mainPipeline env store

/-- `Math.round` on the exact rational value: `⌊x + 1/2⌋` (JS rounds
half-up, toward +∞). -/
def jround (q : ℚ) : ℤ := ⌊q + 1 / 2⌋

/-- The accumulator loop of `calculateTrendSlope` (`part_001:255-259`):
state `(sumX, sumY, sumXY, sumX2)`, `i` the running index `x`. -/
def slopeLoop : List ℚ → ℕ → ℚ × ℚ × ℚ × ℚ → ℚ × ℚ × ℚ × ℚ
  | [], _, acc => acc
  | y :: t, i, (sx, sy, sxy, sx2) =>
    slopeLoop t (i + 1) (sx + (i : ℚ), sy + y, sxy + (i : ℚ) * y, sx2 + (i : ℚ) * (i : ℚ))

/-- `calculateTrendSlope` (`part_001:249-265`), over the list of `aqi`
fields of the history entries. -/
def calculateTrendSlope (history : List ℚ) : ℚ :=
  let n := history.length
  if n < 2 then 0
  else
    let sums := slopeLoop history 0 (0, 0, 0, 0)
    let sumX := sums.1
    let sumY := sums.2.1
    let sumXY := sums.2.2.1
    let sumX2 := sums.2.2.2
    let denominator := (n : ℚ) * sumX2 - sumX * sumX
    if denominator = 0 then 0
    else ((n : ℚ) * sumXY - sumX * sumY) / denominator

/-- `Station` from `types` as built by `fetchRealTimeStations`
(`part_001:208-214`): coordinates and a positive integer AQI. -/
structure Station where
  uid : ℕ
  lat : ℚ
  lon : ℚ
  aqi : ℤ
  stationName : String
deriving DecidableEq

/-- Result record of `interpolateWardAQI`. -/
structure WardEstimate where
  aqi : ℤ
  nearest : String
deriving DecidableEq

/-- Loop state of `interpolateWardAQI`: `(totalWeight, weightedAQISum,
minDistSq, nearestStationName)`.  `minDistSq = none` models the `Infinity`
initial value; distances are carried squared (the source compares
`d = Math.sqrt(dsq)` values, and squaring is strictly monotone on
non-negative reals, while the weight uses `Math.pow(d, 2) = dsq`). -/
def interpolateStep (c : ℚ × ℚ) (st : ℚ × ℚ × Option ℚ × String) (s : Station) :
    ℚ × ℚ × Option ℚ × String :=
  let dsq : ℚ := (s.lat - c.1) ^ 2 + (s.lon - c.2) ^ 2
  let nearestUpd : Option ℚ × String :=
    match st.2.2.1 with
    | none => (some dsq, s.stationName)
    | some m => if dsq < m then (some dsq, s.stationName) else (some m, st.2.2.2)
  let weight : ℚ := 1 / (dsq + 1 / 100000)
  (st.1 + weight, st.2.1 + (s.aqi : ℚ) * weight, nearestUpd.1, nearestUpd.2)

/-- `interpolateWardAQI` (`part_001:270-293`). -/
def interpolateWardAQI (wardCentroid : ℚ × ℚ) (stations : List Station) :
    WardEstimate :=
  match stations with
  | [] => ⟨150, "Historical Node"⟩
  | s0 :: _ =>
    let final := stations.foldl (interpolateStep wardCentroid) (0, 0, none, s0.stationName)
    ⟨jround (final.2.1 / final.1), final.2.2.2⟩

/-- One entry of the forecast list (`AtmosphericPrediction` from `types`),
fields as populated by the local fallback of `getAqiForecast`
(`part_002:266-277`).  The free-text `explanation` field (a string
interpolation of the slope, presentation-only) is not modelled. -/
structure AtmosphericPrediction where
  hours : ℕ
  aqi : ℤ
  primaryPollutant : String
  riskLevel : String
  confidence : ℕ
deriving DecidableEq

/-- Risk tag of the forecast fallback (`part_002:273`):
`predicted > 300 ? "Extreme" : predicted > 200 ? "High" : "Medium"`. -/
def fallbackRiskLevel (predicted : ℤ) : String :=
  if 300 < predicted then "Extreme"
  else if 200 < predicted then "High"
  else "Medium"

/-- The collaborator-failure fallback of `getAqiForecast`
(`part_002:264-279`): three linear projections at fixed horizons. -/
def getAqiForecastFallback (currentAqi trendSlope : ℚ) : List AtmosphericPrediction :=
  ([24, 48, 72] : List ℕ).map fun (h : ℕ) =>
    let predicted : ℤ := max 0 (jround (currentAqi + trendSlope * (h : ℚ)))
    { hours := h, aqi := predicted, primaryPollutant := "PM2.5",
      riskLevel := fallbackRiskLevel predicted, confidence := 65 }

/-- Bin index of the §4.3 risk-level thresholds, written from the spec:
`>450`, `>400`, `>300`, `>200`, `>100`, else — bins 5 down to 0. -/
def specRiskBin (a : ℤ) : ℕ :=
  if 450 < a then 5
  else if 400 < a then 4
  else if 300 < a then 3
  else if 200 < a then 2
  else if 100 < a then 1
  else 0

/-- Coarsening of the §4.3 risk bins onto the fallback's three tags: the
three bins above 300 are `"Extreme"`, the `(200,300]` bin is `"High"`, the
two bins at or below 200 are `"Medium"`. -/
def riskBinTag : ℕ → String
  | 5 => "Extreme"
  | 4 => "Extreme"
  | 3 => "Extreme"
  | 2 => "High"
  | _ => "Medium"

/-! ## Helper lemmas -/

lemma getStatusFromAQI_int (a : ℤ) :
    getStatusFromAQI (.int a) =
      (if 450 < a then AQILevel.HAZARDOUS
       else if 400 < a then AQILevel.SEVERE
       else if 300 < a then AQILevel.POOR
       else if 200 < a then AQILevel.POOR
       else if 100 < a then AQILevel.MODERATE
       else AQILevel.GOOD) := by
  simp [getStatusFromAQI, JsInt.gt]

lemma getGRAPStage_int (a : ℤ) :
    getGRAPStage (.int a) =
      (if 450 ≤ a then ⟨4, "GRAP Stage IV", "Severe+: Truck Entry Ban, Odd-Even Scheme"⟩
       else if 401 ≤ a then ⟨3, "GRAP Stage III", "Severe: Construction & Demolition Ban"⟩
       else if 301 ≤ a then ⟨2, "GRAP Stage II", "Very Poor: Diesel Gen Set Ban, Parking Fee Hike"⟩
       else if 201 ≤ a then ⟨1, "GRAP Stage I", "Poor: Dust Control, Mechanized Sweeping"⟩
       else ⟨0, "No GRAP Active", "Standard Pollution Control Measures"⟩) := by
  simp [getGRAPStage, JsInt.ge]

/-!
### C4 — risk-level bins

The claim asserts six pairwise-distinguishable tiers; in the source both the
`(300,400]` and the `(200,300]` branch return the same `AQILevel.POOR`
value, so only five distinct outputs exist.
-/

/-- C4 (counterexample): `getStatusFromAQI` returns the very same
`AQILevel.POOR` on 350 (the claimed "poor(very)" bin) and on 250 (the
claimed "poor" bin), so the two middle tiers are not distinguishable
outputs and the claim as stated is false. -/
theorem c4_poor_tiers_indistinguishable :
    getStatusFromAQI (.int 350) = AQILevel.POOR ∧
    getStatusFromAQI (.int 250) = AQILevel.POOR ∧
    getStatusFromAQI (.int 350) = getStatusFromAQI (.int 250) := by
  decide

/-- C4 (amended): the risk-level function maps every integer AQI by the
ordered bins `>450` hazardous, `(400,450]` severe, `(300,400]` poor,
`(200,300]` poor (the same output value — CPCB "very poor" and "poor" both
collapse onto `AQILevel.POOR`), `(100,200]` moderate, `≤100` good, and the
five tier values reached are pairwise distinct. -/
theorem c4_risk_level_bins (a : ℤ) :
    (450 < a → getStatusFromAQI (.int a) = AQILevel.HAZARDOUS) ∧
    (400 < a → a ≤ 450 → getStatusFromAQI (.int a) = AQILevel.SEVERE) ∧
    (300 < a → a ≤ 400 → getStatusFromAQI (.int a) = AQILevel.POOR) ∧
    (200 < a → a ≤ 300 → getStatusFromAQI (.int a) = AQILevel.POOR) ∧
    (100 < a → a ≤ 200 → getStatusFromAQI (.int a) = AQILevel.MODERATE) ∧
    (a ≤ 100 → getStatusFromAQI (.int a) = AQILevel.GOOD) ∧
    (AQILevel.HAZARDOUS ≠ AQILevel.SEVERE ∧ AQILevel.SEVERE ≠ AQILevel.POOR ∧
     AQILevel.POOR ≠ AQILevel.MODERATE ∧ AQILevel.MODERATE ≠ AQILevel.GOOD ∧
     AQILevel.HAZARDOUS ≠ AQILevel.POOR ∧ AQILevel.HAZARDOUS ≠ AQILevel.MODERATE ∧
     AQILevel.HAZARDOUS ≠ AQILevel.GOOD ∧ AQILevel.SEVERE ≠ AQILevel.MODERATE ∧
     AQILevel.SEVERE ≠ AQILevel.GOOD ∧ AQILevel.POOR ≠ AQILevel.GOOD) := by
  rw [getStatusFromAQI_int]
  refine ⟨?_, ?_, ?_, ?_, ?_, ?_, by decide⟩ <;>
    · intros
      split_ifs <;> first | rfl | omega

/-- C4 witness: the amended bin statements evaluated at AQI 350. -/
theorem c4_risk_level_bins_witness :
    getStatusFromAQI (.int 350) = AQILevel.POOR :=
  (c4_risk_level_bins 350).2.2.1 (by decide) (by decide)

/-!
### C6 — GRAP staging
-/

/-- C6: `getGRAPStage` maps every integer AQI by the ordered
non-overlapping bins `≥450` → stage 4, `[401,450)` → stage 3,
`[301,401)` → stage 2, `[201,301)` → stage 1, `<201` → stage 0, each with
its fixed label and description; the stage is always at most 4 and is
monotone in the AQI, so the bins are exhaustive and non-overlapping. -/
theorem c6_grap_stage_bins (a : ℤ) :
    (450 ≤ a → getGRAPStage (.int a) =
      ⟨4, "GRAP Stage IV", "Severe+: Truck Entry Ban, Odd-Even Scheme"⟩) ∧
    (401 ≤ a → a < 450 → getGRAPStage (.int a) =
      ⟨3, "GRAP Stage III", "Severe: Construction & Demolition Ban"⟩) ∧
    (301 ≤ a → a < 401 → getGRAPStage (.int a) =
      ⟨2, "GRAP Stage II", "Very Poor: Diesel Gen Set Ban, Parking Fee Hike"⟩) ∧
    (201 ≤ a → a < 301 → getGRAPStage (.int a) =
      ⟨1, "GRAP Stage I", "Poor: Dust Control, Mechanized Sweeping"⟩) ∧
    (a < 201 → getGRAPStage (.int a) =
      ⟨0, "No GRAP Active", "Standard Pollution Control Measures"⟩) ∧
    (getGRAPStage (.int a)).stage ≤ 4 ∧
    (∀ b : ℤ, a ≤ b → (getGRAPStage (.int a)).stage ≤ (getGRAPStage (.int b)).stage) := by
  refine ⟨?_, ?_, ?_, ?_, ?_, ?_, ?_⟩
  · intros; rw [getGRAPStage_int]; split_ifs <;> first | rfl | omega
  · intros; rw [getGRAPStage_int]; split_ifs <;> first | rfl | omega
  · intros; rw [getGRAPStage_int]; split_ifs <;> first | rfl | omega
  · intros; rw [getGRAPStage_int]; split_ifs <;> first | rfl | omega
  · intros; rw [getGRAPStage_int]; split_ifs <;> first | rfl | omega
  · rw [getGRAPStage_int]; split_ifs <;> simp
  · intro b hab
    rw [getGRAPStage_int, getGRAPStage_int]
    split_ifs <;> simp_all <;> omega

/-- C6 witness: the stage-4 bin evaluated at AQI 455. -/
theorem c6_grap_stage_bins_witness :
    getGRAPStage (.int 455) =
      ⟨4, "GRAP Stage IV", "Severe+: Truck Entry Ban, Odd-Even Scheme"⟩ :=
  (c6_grap_stage_bins 455).1 (by decide)

/-!
### C8 — trend rule and the concrete intelligence derivation
-/

/-- C8: the `trend` of the intelligence derivation is `stable` when the
durable previous value is absent, and otherwise is determined by
`delta = aqi − previousValid`: `worsening` for `delta > 5`, `improving` for
`delta < −5`, `stable` in between; and `deriveIntelligence` at
`(aqi 350, previous 300, hour 3)` yields trend `worsening`, prediction
`increasing`, a 0-minute exposure limit, a mandatory N95/N99 mask, and
GRAP stage 2. -/
theorem c8_trend_rule_and_example :
    (∀ (a p : ℤ) (hr : ℕ),
      (calculateIntelligence (.int a) (.stored (.int p)) hr).trend =
        (if 5 < a - p then .worsening
         else if a - p < -5 then .improving
         else .stable)) ∧
    (∀ (a : JsInt) (hr : ℕ),
      (calculateIntelligence a .absent hr).trend = .stable) ∧
    ((calculateIntelligence (.int 350) (.stored (.int 300)) 3).trend = .worsening ∧
     (calculateIntelligence (.int 350) (.stored (.int 300)) 3).prediction = .increasing ∧
     (calculateIntelligence (.int 350) (.stored (.int 300)) 3).exposureMinutes = .minutes 0 ∧
     (calculateIntelligence (.int 350) (.stored (.int 300)) 3).recommendation.mask =
       "N95/N99 Mandatory" ∧
     (calculateIntelligence (.int 350) (.stored (.int 300)) 3).grap.stage = 2) := by
  refine ⟨?_, ?_, by decide⟩
  · intro a p hr
    simp only [calculateIntelligence, JsInt.sub, JsInt.gt, JsInt.lt]
    split_ifs <;> simp_all
  · intro a hr
    cases a <;> rfl

/-!
### C5 — forecast fallback
-/

/-- C5: on collaborator failure `getAqiForecast` falls back to exactly three
predictions at the fixed horizons 24, 48 and 72 hours, each with
`aqi = max(0, round(currentAqi + slope·hours))`, the fixed lower confidence
value 65 and pollutant `PM2.5`, and the risk tag of each prediction factors
through the §4.3 risk-threshold bins: `fallbackRiskLevel` is constant on
every bin of `specRiskBin` (the `riskBinTag` coarsening). -/
theorem c5_forecast_fallback (a s : ℚ) :
    getAqiForecastFallback a s =
      [⟨24, max 0 (jround (a + s * 24)), "PM2.5",
        fallbackRiskLevel (max 0 (jround (a + s * 24))), 65⟩,
       ⟨48, max 0 (jround (a + s * 48)), "PM2.5",
        fallbackRiskLevel (max 0 (jround (a + s * 48))), 65⟩,
       ⟨72, max 0 (jround (a + s * 72)), "PM2.5",
        fallbackRiskLevel (max 0 (jround (a + s * 72))), 65⟩] ∧
    (∀ p : ℤ, fallbackRiskLevel p = riskBinTag (specRiskBin p)) := by
  constructor
  · simp only [getAqiForecastFallback, List.map_cons, List.map_nil]
    norm_num
  · intro p
    simp only [fallbackRiskLevel, specRiskBin]
    split_ifs <;> simp_all [riskBinTag] <;> omega

/-!
### C10 — ward interpolation on empty and singleton station sets
-/

lemma jround_intCast (a : ℤ) : jround (a : ℚ) = a := by
  unfold jround
  rw [add_comm, Int.floor_add_int]
  norm_num

/-- C10: `interpolateWardAQI` on an empty station list returns the fixed
default estimate 150 with the sentinel `'Historical Node'` label, and on a
one-station list it returns exactly that station's AQI — whatever the
station's distance from the centroid — and reports that station as
nearest. -/
theorem c10_interpolation_degenerate_cases :
    (∀ c : ℚ × ℚ, interpolateWardAQI c [] = ⟨150, "Historical Node"⟩) ∧
    (∀ (c : ℚ × ℚ) (s : Station),
      interpolateWardAQI c [s] = ⟨s.aqi, s.stationName⟩) := by
  constructor
  · intro c; rfl
  · intro c s
    have hw : (1 : ℚ) / ((s.lat - c.1) ^ 2 + (s.lon - c.2) ^ 2 + 1 / 100000) ≠ 0 := by
      have : (0 : ℚ) < (s.lat - c.1) ^ 2 + (s.lon - c.2) ^ 2 + 1 / 100000 := by positivity
      exact one_div_ne_zero (ne_of_gt this)
    simp only [interpolateWardAQI, interpolateStep, List.foldl_cons, List.foldl_nil,
      zero_add]
    rw [mul_div_cancel_right₀ _ hw, jround_intCast]

/-!
### C7 — bounds aggregation
-/

lemma mem_validStations (l : List JsInt) (v : ℤ) :
    v ∈ validStations l ↔ JsInt.int v ∈ l ∧ 0 < v := by
  induction l with
  | nil => simp [validStations]
  | cons h t ih =>
    cases h with
    | nan => simpa [validStations] using ih
    | int n =>
      by_cases hn : 0 < n
      · simp only [validStations, if_pos hn, List.mem_cons, ih]
        constructor
        · rintro (rfl | ⟨hm, hv⟩)
          · exact ⟨Or.inl rfl, hn⟩
          · exact ⟨Or.inr hm, hv⟩
        · rintro ⟨he | hm, hv⟩
          · cases he; exact Or.inl rfl
          · exact Or.inr ⟨hm, hv⟩
      · simp only [validStations, if_neg hn, ih, List.mem_cons]
        constructor
        · rintro ⟨hm, hv⟩
          exact ⟨Or.inr hm, hv⟩
        · rintro ⟨he | hm, hv⟩
          · cases he; exact absurd hv hn
          · exact ⟨hm, hv⟩

lemma le_foldl_max (l : List ℤ) (a : ℤ) :
    a ≤ l.foldl max a ∧ ∀ x ∈ l, x ≤ l.foldl max a := by
  induction l generalizing a with
  | nil => simp
  | cons h t ih =>
    refine ⟨le_trans (le_max_left a h) (ih (max a h)).1, ?_⟩
    intro x hx
    rcases List.mem_cons.mp hx with rfl | hx
    · exact le_trans (le_max_right a x) (ih (max a x)).1
    · exact (ih (max a h)).2 x hx

lemma foldl_max_mem (l : List ℤ) (a : ℤ) :
    l.foldl max a = a ∨ l.foldl max a ∈ l := by
  induction l generalizing a with
  | nil => exact Or.inl rfl
  | cons h t ih =>
    rcases ih (max a h) with hc | hc
    · rcases max_choice a h with hm | hm
      · exact Or.inl (by rw [List.foldl_cons, hc, hm])
      · refine Or.inr ?_
        rw [List.foldl_cons, hc, hm]
        exact List.mem_cons_self h t
    · exact Or.inr (List.mem_cons_of_mem h hc)

lemma validStations_ne_nil_imp (l : List JsInt) (hne : validStations l ≠ []) :
    l.isEmpty = false := by
  cases l with
  | nil => exact absurd rfl hne
  | cons h t => rfl

/-- C7: in the bounds-aggregation step, the valid-station list keeps exactly
the entries whose AQI parsed to an integer strictly greater than 0
(non-numeric and non-positive entries are discarded), and whenever at least
one valid station remains, the computed city AQI is the maximum over the
valid stations: it is itself a valid station value and an upper bound of
them all. -/
theorem c7_bounds_aggregation_max (l : List JsInt) :
    (∀ v : ℤ, v ∈ validStations l ↔ JsInt.int v ∈ l ∧ 0 < v) ∧
    (validStations l ≠ [] →
      boundsAqi (some l) ∈ validStations l ∧
      ∀ v ∈ validStations l, v ≤ boundsAqi (some l)) := by
  refine ⟨fun v => mem_validStations l v, fun hne => ?_⟩
  have hl : l.isEmpty = false := validStations_ne_nil_imp l hne
  cases hv : validStations l with
  | nil => exact absurd hv hne
  | cons h t =>
    have hb : boundsAqi (some l) = t.foldl max h := by
      simp [boundsAqi, hl, hv]
    constructor
    · rw [hb]
      rcases foldl_max_mem t h with hc | hc
      · rw [hc]; exact List.mem_cons_self h t
      · exact List.mem_cons_of_mem h hc
    · intro v hvm
      rw [hb]
      rcases List.mem_cons.mp hvm with rfl | hvm
      · exact (le_foldl_max t v).1
      · exact (le_foldl_max t h).2 v hvm

/-- C7 witness: aggregation over the parse results
`[3, NaN, 7, −2]` — the maximum 7 is a valid station value and bounds the
valid list `[3, 7]`. -/
theorem c7_bounds_aggregation_max_witness :
    boundsAqi (some [.int 3, .nan, .int 7, .int (-2)]) ∈
      validStations [.int 3, .nan, .int 7, .int (-2)] :=
  (c7_bounds_aggregation_max [.int 3, .nan, .int 7, .int (-2)]).2 (by decide) |>.1

/-!
### C1 — the failsafe does not re-validate the durable slot

`fetchLiveCityAQI` guards `isNaN(currentAqi) || currentAqi <= 0` *before*
reading the durable slot, but assigns `parseInt(last)` with no re-check
(`part_001:156-157`).  A corrupt (non-numeric) durable string therefore
leaks `NaN` into the resolved value, violating the positive-integer
invariant the spec states for the whole failure space — which explicitly
includes corrupt cache slots.
-/

/-- Failing environment for C1: live cache absent, bounds feed ok with an
empty station array, city feed non-ok. -/
def c1FailEnv : Env :=
  { bounds := .returns (some []), feed := .returns .notOk,
    nowTime := 0, hour := 0, timeStr := "" }

/-- Failing store for C1: live slot absent, durable slot holding a
non-numeric (corrupt) string, whose `parseInt` is `NaN`. -/
def c1FailStore : Store := { live := .absent, lastValid := .stored .nan }

/-- C1 (code bug): with every upstream yielding nothing usable and a corrupt
durable slot, `fetchLiveCityAQI` resolves — no exception — but the resolved
`aqi` field is `NaN`, not a positive integer, and the `NaN` is even written
back to the durable slot.  The spec (§4.2, §7, §8) requires corruption of
either slot to degrade to the constant default instead. -/
theorem c1_failsafe_leaks_nan :
    (fetchLiveCityAQI c1FailEnv c1FailStore).1.map LiveAqiData.aqi =
      Except.ok JsInt.nan ∧
    (fetchLiveCityAQI c1FailEnv c1FailStore).2.lastValid = .stored .nan := by
  constructor <;> rfl

/-!
### C2 — the catch-path cache read does not tolerate corruption

The `catch` branch re-reads the live slot and calls
`JSON.parse(cached).data` with no guard (`part_001:183-184`); a corrupt
stored string makes that `JSON.parse` throw inside the `catch`, so the
promise rejects — the function throws to its caller.
-/

/-- Failing environment for C2: the bounds fetch rejects (network error). -/
def c2FailEnv : Env :=
  { bounds := .throws, feed := .returns .notOk,
    nowTime := 0, hour := 0, timeStr := "" }

/-- Failing store for C2: the live slot holds malformed JSON. -/
def c2FailStore : Store := { live := .corrupt, lastValid := .absent }

/-- C2 (code bug): a network error combined with a corrupt live-cache slot
makes `fetchLiveCityAQI` throw to its caller (the promise rejects), because
the catch-branch cache read does not treat the malformed stored value as a
miss.  The spec contract says the function never throws and always
resolves. -/
theorem c2_catch_path_rethrows :
    (fetchLiveCityAQI c2FailEnv c2FailStore).1 = Except.error () := by
  rfl

/-!
### C3 — the durable slot is overwritten before the trend baseline is read

On the non-exception path, `fetchLiveCityAQI` executes
`localStorage.setItem(LAST_VALID_AQI_KEY, currentAqi.toString())`
(`part_001:161`) *before* `calculateIntelligence(currentAqi)` reads that
same key as the previous value (`part_001:42`), so the trend delta is
always `0` (or `NaN`) and the reported trend is always `'stable'`.
-/

lemma calculateIntelligence_self_trend (a : JsInt) (hr : ℕ) :
    (calculateIntelligence a (.stored a) hr).trend = .stable := by
  cases a with
  | nan => rfl
  | int n => simp [calculateIntelligence, JsInt.sub, JsInt.gt, JsInt.lt, sub_self]

lemma finishPipeline_trend_stable (env : Env) (store : Store) (a : JsInt)
    (dom city : String) :
    ∃ r, (finishPipeline env store a dom city).1 = .ok r ∧
      r.intelligence.trend = .stable := by
  unfold finishPipeline
  refine ⟨_, rfl, ?_⟩
  exact calculateIntelligence_self_trend _ _

/-- C3: every call of `fetchLiveCityAQI` that misses the fresh live cache
and in which neither network fetch throws (so the catch branch is never
entered) resolves with `intelligence.trend = 'stable'`: the durable
last-valid slot is overwritten with the resolved AQI before
`calculateIntelligence` reads that same slot as the baseline, making the
delta 0. -/
theorem c3_trend_always_stable (env : Env) (store : Store)
    (hmiss : freshCacheHit env store = false)
    (hb : env.bounds ≠ .throws) (hf : env.feed ≠ .throws) :
    ∃ r, (fetchLiveCityAQI env store).1 = .ok r ∧
      r.intelligence.trend = .stable := by
  have hmain : fetchLiveCityAQI env store = mainPipeline env store := by
    unfold fetchLiveCityAQI
    unfold freshCacheHit at hmiss
    cases hl : store.live with
    | entry d ts =>
      rw [hl] at hmiss
      simp only [] at hmiss ⊢
      rw [hmiss]
      simp
    | absent => rfl
    | corrupt => rfl
  rw [hmain]
  unfold mainPipeline
  cases hbv : env.bounds with
  | throws => exact absurd hbv hb
  | returns bdata =>
    simp only []
    by_cases h0 : boundsAqi bdata = 0
    · rw [if_pos h0]
      cases hfv : env.feed with
      | throws => exact absurd hfv hf
      | returns fr =>
        cases fr with
        | notOk => exact finishPipeline_trend_stable env store (.int 0) "PM2.5" "Delhi NCT"
        | ok a d c => exact finishPipeline_trend_stable env store a (d.getD "PM2.5") c
    · rw [if_neg h0]
      exact finishPipeline_trend_stable env store (.int (boundsAqi bdata)) "PM2.5" "Delhi NCT"

/-- Concrete environment for the C3 witness: a working upstream answering
with one valid station of AQI 287, an idle feed, at 3 am. -/
def c3WitnessEnv : Env :=
  { bounds := .returns (some [.int 287]), feed := .returns .notOk,
    nowTime := 0, hour := 3, timeStr := "03:00" }

/-- Concrete store for the C3 witness: both slots empty (a cache miss). -/
def c3WitnessStore : Store := { live := .absent, lastValid := .absent }

/-- C3 witness: at the concrete miss environment above, the call resolves
with trend `'stable'`. -/
theorem c3_trend_always_stable_witness :
    ∃ r, (fetchLiveCityAQI c3WitnessEnv c3WitnessStore).1 = .ok r ∧
      r.intelligence.trend = .stable :=
  c3_trend_always_stable c3WitnessEnv c3WitnessStore rfl
    (by decide) (by decide)

/-!
### C9 — ordinary-least-squares trend slope
-/

lemma sum_range_succ_shift (n k : ℕ) (g : ℕ → ℕ → ℚ) :
    ∑ i ∈ Finset.range (n + 1), g (k + i) i
      = g k 0 + ∑ i ∈ Finset.range n, g (k + 1 + i) (i + 1) := by
  have h1 : g (k + 0) 0 = g k 0 := by norm_num
  have h2 : ∀ i : ℕ, g (k + (i + 1)) (i + 1) = g (k + 1 + i) (i + 1) := fun i => by
    congr 1
    omega
  rw [Finset.sum_range_succ', add_comm, h1]
  exact congrArg (g k 0 + ·) (Finset.sum_congr rfl fun i _ => h2 i)

lemma slopeLoop_eq (l : List ℚ) : ∀ (k : ℕ) (sx sy sxy sx2 : ℚ),
    slopeLoop l k (sx, sy, sxy, sx2) =
      (sx + ∑ i ∈ Finset.range l.length, ((k + i : ℕ) : ℚ),
       sy + ∑ i ∈ Finset.range l.length, l.getD i 0,
       sxy + ∑ i ∈ Finset.range l.length, ((k + i : ℕ) : ℚ) * l.getD i 0,
       sx2 + ∑ i ∈ Finset.range l.length, ((k + i : ℕ) : ℚ) * ((k + i : ℕ) : ℚ)) := by
  induction l with
  | nil => intro k sx sy sxy sx2; simp [slopeLoop]
  | cons y t ih =>
    intro k sx sy sxy sx2
    rw [slopeLoop, ih]
    have e1 : ∑ i ∈ Finset.range (t.length + 1), ((k + i : ℕ) : ℚ)
        = ((k : ℕ) : ℚ) + ∑ i ∈ Finset.range t.length, ((k + 1 + i : ℕ) : ℚ) :=
      sum_range_succ_shift t.length k (fun j _ => ((j : ℕ) : ℚ))
    have e2 : ∑ i ∈ Finset.range (t.length + 1), (y :: t).getD i 0
        = y + ∑ i ∈ Finset.range t.length, t.getD i 0 := by
      have := sum_range_succ_shift t.length k (fun _ i => (y :: t).getD i 0)
      simpa using this
    have e3 : ∑ i ∈ Finset.range (t.length + 1), ((k + i : ℕ) : ℚ) * (y :: t).getD i 0
        = ((k : ℕ) : ℚ) * y
          + ∑ i ∈ Finset.range t.length, ((k + 1 + i : ℕ) : ℚ) * t.getD i 0 := by
      have := sum_range_succ_shift t.length k (fun j i => ((j : ℕ) : ℚ) * (y :: t).getD i 0)
      simpa using this
    have e4 : ∑ i ∈ Finset.range (t.length + 1), ((k + i : ℕ) : ℚ) * ((k + i : ℕ) : ℚ)
        = ((k : ℕ) : ℚ) * ((k : ℕ) : ℚ)
          + ∑ i ∈ Finset.range t.length, ((k + 1 + i : ℕ) : ℚ) * ((k + 1 + i : ℕ) : ℚ) :=
      sum_range_succ_shift t.length k (fun j _ => ((j : ℕ) : ℚ) * ((j : ℕ) : ℚ))
    simp only [List.length_cons, e1, e2, e3, e4]
    refine Prod.ext ?_ (Prod.ext ?_ (Prod.ext ?_ ?_)) <;> dsimp <;> ring

lemma twice_sum_range_id (n : ℕ) :
    (2 : ℚ) * ∑ i ∈ Finset.range n, (i : ℚ) = (n : ℚ) * ((n : ℚ) - 1) := by
  induction n with
  | zero => simp
  | succ m ih =>
    rw [Finset.sum_range_succ, mul_add, ih]
    push_cast
    ring

lemma six_sum_range_sq (n : ℕ) :
    (6 : ℚ) * ∑ i ∈ Finset.range n, (i : ℚ) * (i : ℚ)
      = (n : ℚ) * ((n : ℚ) - 1) * (2 * (n : ℚ) - 1) := by
  induction n with
  | zero => simp
  | succ m ih =>
    rw [Finset.sum_range_succ, mul_add, ih]
    push_cast
    ring

lemma slope_denom_pos (n : ℕ) (hn : 2 ≤ n) :
    0 < (n : ℚ) * (∑ i ∈ Finset.range n, (i : ℚ) * (i : ℚ))
      - (∑ i ∈ Finset.range n, (i : ℚ)) * (∑ i ∈ Finset.range n, (i : ℚ)) := by
  have h2 := twice_sum_range_id n
  have h6 := six_sum_range_sq n
  have hn' : (2 : ℚ) ≤ (n : ℚ) := by exact_mod_cast hn
  have hS1 : ∑ i ∈ Finset.range n, (i : ℚ) = (n : ℚ) * ((n : ℚ) - 1) / 2 := by
    linarith [h2]
  have hS2 : ∑ i ∈ Finset.range n, (i : ℚ) * (i : ℚ)
      = (n : ℚ) * ((n : ℚ) - 1) * (2 * (n : ℚ) - 1) / 6 := by
    linarith [h6]
  rw [hS1, hS2]
  have key : (n : ℚ) * ((n : ℚ) * ((n : ℚ) - 1) * (2 * (n : ℚ) - 1) / 6)
      - (n : ℚ) * ((n : ℚ) - 1) / 2 * ((n : ℚ) * ((n : ℚ) - 1) / 2)
      = (n : ℚ) ^ 2 * ((n : ℚ) - 1) * ((n : ℚ) + 1) / 12 := by
    ring
  rw [key]
  have a1 : (0 : ℚ) < (n : ℚ) ^ 2 := by nlinarith
  have a2 : (0 : ℚ) < (n : ℚ) - 1 := by linarith
  have a3 : (0 : ℚ) < (n : ℚ) + 1 := by linarith
  exact div_pos (mul_pos (mul_pos a1 a2) a3) (by norm_num)

/-- C9: `calculateTrendSlope` returns the ordinary-least-squares slope
`(nΣxy − ΣxΣy) / (nΣx² − (Σx)²)` over `x = 0..n−1`, `y` the series values,
for every series with `n ≥ 2` — for such `x` the denominator is
automatically nonzero (it equals `n²(n²−1)/12 > 0`), so the nonzero-denominator
guard of the claim is subsumed; it returns 0 whenever `n < 2` (the `n < 2`
and zero-denominator guards of the source); and it returns 10 on the series
`[100, 110, 120]`. -/
theorem c9_ols_slope :
    (∀ l : List ℚ, 2 ≤ l.length →
      ((l.length : ℚ) * (∑ i ∈ Finset.range l.length, (i : ℚ) * (i : ℚ))
          - (∑ i ∈ Finset.range l.length, (i : ℚ))
            * (∑ i ∈ Finset.range l.length, (i : ℚ)) ≠ 0 ∧
       calculateTrendSlope l =
         ((l.length : ℚ) * (∑ i ∈ Finset.range l.length, (i : ℚ) * l.getD i 0)
            - (∑ i ∈ Finset.range l.length, (i : ℚ))
              * (∑ i ∈ Finset.range l.length, l.getD i 0))
         / ((l.length : ℚ) * (∑ i ∈ Finset.range l.length, (i : ℚ) * (i : ℚ))
            - (∑ i ∈ Finset.range l.length, (i : ℚ))
              * (∑ i ∈ Finset.range l.length, (i : ℚ))))) ∧
    (∀ l : List ℚ, l.length < 2 → calculateTrendSlope l = 0) ∧
    calculateTrendSlope [100, 110, 120] = 10 := by
  refine ⟨?_, ?_, by norm_num [calculateTrendSlope, slopeLoop]⟩
  · intro l hl
    have hpos := slope_denom_pos l.length hl
    refine ⟨ne_of_gt hpos, ?_⟩
    simp only [calculateTrendSlope]
    rw [if_neg (by omega)]
    rw [slopeLoop_eq]
    simp only [Nat.zero_add, zero_add]
    rw [if_neg (ne_of_gt hpos)]
  · intro l hl
    simp only [calculateTrendSlope]
    rw [if_pos hl]

/-- C9 witness: the OLS formula instantiated on the concrete series
`[100, 110, 120]`. -/
theorem c9_ols_slope_witness :
    calculateTrendSlope [100, 110, 120] =
      ((3 : ℚ) * (∑ i ∈ Finset.range 3, (i : ℚ) * ([100, 110, 120] : List ℚ).getD i 0)
        - (∑ i ∈ Finset.range 3, (i : ℚ))
          * (∑ i ∈ Finset.range 3, ([100, 110, 120] : List ℚ).getD i 0))
      / ((3 : ℚ) * (∑ i ∈ Finset.range 3, (i : ℚ) * (i : ℚ))
        - (∑ i ∈ Finset.range 3, (i : ℚ)) * (∑ i ∈ Finset.range 3, (i : ℚ))) := by
  have h := (c9_ols_slope.1 [100, 110, 120] (by norm_num)).2
  simpa using h
